import Mathlib

/-!
Shallow embedding of the PDF text-extraction service
(`ckd-decision-support/FASTAPI/python/pdf_service.py`).

The external world (the pypdf text extraction per page, the `pdftoppm`
rasterizer subprocess, the `tesseract` OCR subprocess) is modelled by
explicit outcome parameters; the Python control flow of `pdf_service.py`
is translated line by line into pure Lean functions.
-/

namespace PdfService

/-- Python `s.strip()`: remove leading and trailing whitespace.
Implemented by structural recursion over the character list so concrete
instances evaluate in the kernel. -/
def pyStrip (s : String) : String :=
  ⟨List.rdropWhile Char.isWhitespace (s.data.dropWhile Char.isWhitespace)⟩

/-- Python `s.lower()`. -/
def pyLower (s : String) : String := ⟨s.data.map Char.toLower⟩

/-- Python `s.endswith(suffix)`. -/
def pyEndsWith (s suffix : String) : Bool := suffix.data.isSuffixOf s.data

/-- Outcome of `page.extract_text()` for a single page (pdf_service.py
lines 126-131): it may return a string, return `None`, or raise. -/
inductive ExtractOutcome where
  | ok (s : String)
  | noText
  | raised
  deriving Repr, DecidableEq

/-- Lines 127-131: `text = page.extract_text() or ""`, then
`extracted_texts[i] = text.strip()`; on an exception the slot is `""`.
`None or ""` is `""`, and `"".strip() = ""`. -/
def directText : ExtractOutcome → String
  | .ok s => pyStrip s
  | .noText => ""
  | .raised => ""

/-- The first pass (lines 126-131) over all pages of the document. -/
def directPass (doc : List ExtractOutcome) : List String :=
  doc.map directText

/-- Outcome of the `tesseract` subprocess call inside `ocr_image`
(lines 86-92): it completes with some stdout (no `check=True`, so any
exit status lands here), times out, or raises some other exception. -/
inductive RunOutcome where
  | completed (stdout : String)
  | timedOut
  | errored (msg : String)
  deriving Repr, DecidableEq

/-- Function `ocr_image` (lines 81-98): `text = result.stdout.strip()`;
return `text if text else "[OCR EMPTY]"`; `subprocess.TimeoutExpired`
gives `"[OCR TIMEOUT]"`; any other exception gives `"[OCR ERROR] " + str(e)`. -/
def ocr_image : RunOutcome → String
  | .completed out =>
      let text := pyStrip out
      if text = "" then "[OCR EMPTY]" else text
  | .timedOut => "[OCR TIMEOUT]"
  | .errored msg => "[OCR ERROR] " ++ msg

/-- Outcome of the `pdftoppm` subprocess call inside
`convert_pdf_to_images` (lines 56-72): either it fails in some way
(non-zero exit via `check=True`, timeout, any other exception), or it
succeeds having produced image files `page-<n>.jpg`; an image file is
represented by the number `n` appearing in its name. -/
inductive RasterOutcome where
  | failed
  | produced (stems : List Nat)
  deriving Repr, DecidableEq

/-- Function `convert_pdf_to_images` (lines 48-76): on any exception return `[]`;
otherwise return the produced files sorted by the integer in their stem
(`sorted(..., key=lambda p: int(p.stem.split("-")[-1]))`; Python's
`sorted` is a stable sort, as is `insertionSort`). -/
def convert_pdf_to_images : RasterOutcome → List Nat
  | .failed => []
  | .produced stems => stems.insertionSort (· ≤ ·)

/-- Python `dict` assignment `d[k] = v` on an association list:
overwrite in place if the key is present, else append. -/
def dictInsert (m : List (Nat × Nat)) (k v : Nat) : List (Nat × Nat) :=
  if m.any (fun kv => kv.1 == k) then
    m.map (fun kv => if kv.1 == k then (k, v) else kv)
  else m ++ [(k, v)]

/-- Python `d.get(k)` on the association list. -/
def dictGet (m : List (Nat × Nat)) (k : Nat) : Option Nat :=
  (m.find? (fun kv => kv.1 == k)).map (·.2)

/-- Lines 139-143: build `page_to_image` — for each image file,
`page_num = int(Path(img_path).stem.split("-")[-1]) - 1`; keep it only
if `0 <= page_num < num_pages`. -/
def page_to_image (num_pages : Nat) (images : List Nat) : List (Nat × Nat) :=
  images.foldl (fun m stem =>
    let page_num : Int := Int.ofNat stem - 1
    if 0 ≤ page_num ∧ page_num < (num_pages : Int) then
      dictInsert m page_num.toNat stem
    else m) []

/-- The page classifier condition of line 146: `len(t.strip()) < 20`
marks a page as needing OCR. -/
def needs_ocr_check (t : String) : Bool :=
  decide ((pyStrip t).length < 20)

/-- Line 146: `[i for i, t in enumerate(extracted_texts) if len(t.strip()) < 20]`. -/
def pages_needing_ocr (texts : List String) : List Nat :=
  (List.range texts.length).filter (fun i => needs_ocr_check (texts.getD i ""))

/-- One step of the scheduling loop (lines 157-162): look up the page's
image; with an image, submit one OCR task `(page_index, img)`; without
one, write the sentinel into the page's slot immediately. -/
def schedStep (p2i : List (Nat × Nat)) (acc : List String × List (Nat × Nat))
    (page_index : Nat) : List String × List (Nat × Nat) :=
  match dictGet p2i page_index with
  | some img => (acc.1, acc.2 ++ [(page_index, img)])
  | none => (acc.1.set page_index "[NO IMAGE AVAILABLE FOR OCR]", acc.2)

/-- The scheduling loop over `pages_needing_ocr` (lines 157-162),
returning the updated text slots and the list of submitted tasks. -/
def schedulePhase (texts : List String) (p2i : List (Nat × Nat))
    (needs : List Nat) : List String × List (Nat × Nat) :=
  needs.foldl (schedStep p2i) (texts, [])

/-- One completed future (lines 165-168): `extracted_texts[idx] = fut.result()`,
where the result is `ocr_image` run on the task's image. -/
def collectStep (env : Nat → RunOutcome) (ts : List String)
    (task : Nat × Nat) : List String :=
  ts.set task.1 (ocr_image (env task.2))

/-- The `as_completed` collection loop (lines 164-170), given the order
in which the futures complete. -/
def collectPhase (ts : List String) (tasks : List (Nat × Nat))
    (env : Nat → RunOutcome) : List String :=
  tasks.foldl (collectStep env) ts

/-- The fully processed `extracted_texts` array of `extract_pdf`
(lines 120-170): direct pass, single rasterization, `page_to_image`,
classification, and — only if some page needs OCR — the scheduling and
collection loops. `env` gives the `tesseract` outcome per image. -/
def final_texts (doc : List ExtractOutcome) (raster : RasterOutcome)
    (env : Nat → RunOutcome) : List String :=
  let num_pages := doc.length
  let texts := directPass doc
  let image_paths := convert_pdf_to_images raster
  let p2i := page_to_image num_pages image_paths
  let needs := pages_needing_ocr texts
  if needs.length > 0 then
    let st := schedulePhase texts p2i needs
    collectPhase st.1 st.2 env
  else texts

/-- The OCR tasks actually submitted to the thread pool (line 160):
none at all when no page needs OCR (line 153 guards the whole block). -/
def ocr_tasks_of (doc : List ExtractOutcome) (raster : RasterOutcome) :
    List (Nat × Nat) :=
  let texts := directPass doc
  let p2i := page_to_image doc.length (convert_pdf_to_images raster)
  let needs := pages_needing_ocr texts
  if needs.length > 0 then (schedulePhase texts p2i needs).2 else []

/-- The JSON body returned by `/extract` on success (lines 182-188). -/
structure ExtractionResult where
  status : String
  page_count : Nat
  ocr_used : Bool
  pages : List (Nat × String)
  full_text : String
  deriving Repr, DecidableEq

/-- Observable side effects of one `/extract` request: whether the upload
was written to a temp file (lines 110-112), whether `pdftoppm` was
invoked (line 136), and which OCR tasks were submitted (line 160). -/
structure Trace where
  saved : Bool
  raster_invoked : Bool
  ocr_tasks : List (Nat × Nat)
  deriving Repr, DecidableEq

/-- The body of `extract_pdf` after a successful `PdfReader` open
(lines 120-188), paired with the trace of its side effects.
`convert_pdf_to_images` is called unconditionally at line 136, before
`pages_needing_ocr` is computed at line 146, so `raster_invoked` is
always `true` on this path. -/
def extract_core_traced (doc : List ExtractOutcome) (raster : RasterOutcome)
    (env : Nat → RunOutcome) : ExtractionResult × Trace :=
  let num_pages := doc.length
  let needs := pages_needing_ocr (directPass doc)
  let ocr_used := decide (needs.length > 0)
  let finalTexts := final_texts doc raster env
  ({ status := "success"
     page_count := num_pages
     ocr_used := ocr_used
     pages := (List.range num_pages).map (fun i => (i + 1, finalTexts.getD i ""))
     full_text := String.intercalate "\n\n" finalTexts },
   { saved := true
     raster_invoked := true
     ocr_tasks := ocr_tasks_of doc raster })

/-- The `/extract` route end to end (lines 103-188): filename validation
(lines 106-107) rejects with 400 before the file is saved; a `PdfReader`
failure (lines 115-118) rejects with 500 after saving; otherwise the
core pipeline runs. `read` is the outcome of `PdfReader`: the per-page
extraction outcomes, or the parse error message. -/
def extract_endpoint (filename : String)
    (read : Except String (List ExtractOutcome)) (raster : RasterOutcome)
    (env : Nat → RunOutcome) :
    Except (Nat × String) ExtractionResult × Trace :=
  if ¬ (pyEndsWith (pyLower filename) ".pdf") then
    (.error (400, "File must be a PDF"),
     { saved := false, raster_invoked := false, ocr_tasks := [] })
  else
    match read with
    | .error e =>
        (.error (500, "PDF read error: " ++ e),
         { saved := true, raster_invoked := false, ocr_tasks := [] })
    | .ok doc =>
        let (res, tr) := extract_core_traced doc raster env
        (.ok res, tr)

/-! ### Helper lemmas -/

theorem dropWhile_rdropWhile_dropWhile {α : Type} (p : α → Bool) (l : List α) :
    List.dropWhile p (List.rdropWhile p (List.dropWhile p l))
      = List.rdropWhile p (List.dropWhile p l) := by
  cases hm : List.dropWhile p l with
  | nil => simp [List.rdropWhile]
  | cons a t =>
    have ha : ¬ p a := by
      have h0 : 0 < (List.dropWhile p l).length := by rw [hm]; simp
      have hz := List.dropWhile_get_zero_not (p := p) l h0
      simpa [hm] using hz
    rw [List.rdropWhile, List.reverse_cons, List.dropWhile_append]
    split
    · simp [List.dropWhile_cons, ha]
    · rw [List.reverse_append]
      simp [List.dropWhile_cons, ha]

theorem pyStrip_idem (s : String) : pyStrip (pyStrip s) = pyStrip s := by
  show (⟨List.rdropWhile Char.isWhitespace (List.dropWhile Char.isWhitespace
      (List.rdropWhile Char.isWhitespace
        (List.dropWhile Char.isWhitespace s.data)))⟩ : String) = _
  rw [dropWhile_rdropWhile_dropWhile, List.rdropWhile_idempotent]
  rfl

theorem needs_ocr_check_pyStrip (t : String) :
    needs_ocr_check (pyStrip t) = needs_ocr_check t := by
  simp only [needs_ocr_check, pyStrip_idem]

theorem length_directPass (doc : List ExtractOutcome) :
    (directPass doc).length = doc.length :=
  List.length_map doc directText

theorem directPass_getD (doc : List ExtractOutcome) (i : Nat) (h : i < doc.length) :
    (directPass doc).getD i "" = directText (doc.getD i ExtractOutcome.noText) := by
  rw [List.getD_eq_getElem?_getD, List.getD_eq_getElem?_getD, directPass,
    List.getElem?_map, List.getElem?_eq_getElem h]
  rfl

theorem mem_pages_needing_ocr {texts : List String} {i : Nat} :
    i ∈ pages_needing_ocr texts
      ↔ i < texts.length ∧ needs_ocr_check (texts.getD i "") = true := by
  simp [pages_needing_ocr, List.mem_filter, List.mem_range]

theorem nodup_pages_needing_ocr (texts : List String) :
    (pages_needing_ocr texts).Nodup :=
  (List.nodup_range _).filter _

theorem getD_set_ne {l : List String} {i j : Nat} (h : i ≠ j) (a d : String) :
    (l.set i a).getD j d = l.getD j d := by
  rw [List.getD_eq_getElem?_getD, List.getD_eq_getElem?_getD, List.getElem?_set_ne h]

theorem getD_set_self {l : List String} {i : Nat} (h : i < l.length) (a d : String) :
    (l.set i a).getD i d = a := by
  rw [List.getD_eq_getElem?_getD, List.getElem?_set_self h]
  rfl

theorem schedFold_snd (p2i : List (Nat × Nat)) (needs : List Nat)
    (texts : List String) (acc : List (Nat × Nat)) :
    (needs.foldl (schedStep p2i) (texts, acc)).2
      = acc ++ needs.filterMap (fun j => (dictGet p2i j).map (fun img => (j, img))) := by
  induction needs generalizing texts acc with
  | nil => simp
  | cons j t ih =>
    rw [List.foldl_cons]
    cases hj : dictGet p2i j with
    | some img => simp [schedStep, hj, ih]
    | none => simp [schedStep, hj, ih]

theorem schedFold_fst_length (p2i : List (Nat × Nat)) (needs : List Nat)
    (texts : List String) (acc : List (Nat × Nat)) :
    (needs.foldl (schedStep p2i) (texts, acc)).1.length = texts.length := by
  induction needs generalizing texts acc with
  | nil => rfl
  | cons j t ih =>
    rw [List.foldl_cons]
    cases hj : dictGet p2i j with
    | some img => simp only [schedStep, hj]; exact ih texts _
    | none => simp only [schedStep, hj]; rw [ih]; exact List.length_set texts j _

theorem schedFold_fst_getD_of_img (p2i : List (Nat × Nat)) (needs : List Nat)
    (texts : List String) (acc : List (Nat × Nat)) (i : Nat) (d : String)
    (h : i ∈ needs → (dictGet p2i i).isSome) :
    (needs.foldl (schedStep p2i) (texts, acc)).1.getD i d = texts.getD i d := by
  induction needs generalizing texts acc with
  | nil => rfl
  | cons j t ih =>
    rw [List.foldl_cons]
    cases hj : dictGet p2i j with
    | some img =>
      simp only [schedStep, hj]
      exact ih texts _ (fun hm => h (List.mem_cons_of_mem _ hm))
    | none =>
      have hji : j ≠ i := by
        intro e
        subst e
        have := h (List.mem_cons_self _ _)
        rw [hj] at this
        simp at this
      simp only [schedStep, hj]
      rw [ih _ _ (fun hm => h (List.mem_cons_of_mem _ hm)), getD_set_ne hji]

theorem schedFold_fst_getD_stable (p2i : List (Nat × Nat)) (needs : List Nat)
    (texts : List String) (acc : List (Nat × Nat)) (i : Nat) (d : String)
    (hi : dictGet p2i i = none) (hlen : i < texts.length)
    (hval : texts.getD i d = "[NO IMAGE AVAILABLE FOR OCR]") :
    (needs.foldl (schedStep p2i) (texts, acc)).1.getD i d
      = "[NO IMAGE AVAILABLE FOR OCR]" := by
  induction needs generalizing texts acc with
  | nil => exact hval
  | cons j t ih =>
    rw [List.foldl_cons]
    cases hj : dictGet p2i j with
    | some img => simp only [schedStep, hj]; exact ih texts _ hlen hval
    | none =>
      simp only [schedStep, hj]
      by_cases hji : j = i
      · subst hji
        exact ih _ _ (by rw [List.length_set]; exact hlen) (getD_set_self hlen _ d)
      · exact ih _ _ (by rw [List.length_set]; exact hlen)
          (by rw [getD_set_ne hji]; exact hval)

theorem schedFold_fst_getD_none (p2i : List (Nat × Nat)) (needs : List Nat)
    (texts : List String) (acc : List (Nat × Nat)) (i : Nat) (d : String)
    (hmem : i ∈ needs) (hi : dictGet p2i i = none) (hlen : i < texts.length) :
    (needs.foldl (schedStep p2i) (texts, acc)).1.getD i d
      = "[NO IMAGE AVAILABLE FOR OCR]" := by
  induction needs generalizing texts acc with
  | nil => cases hmem
  | cons j t ih =>
    rw [List.foldl_cons]
    by_cases hji : j = i
    · rw [hji]
      simp only [schedStep, hi]
      exact schedFold_fst_getD_stable p2i t _ _ i d hi
        (by rw [List.length_set]; exact hlen) (getD_set_self hlen _ d)
    · have hmem' : i ∈ t := by
        cases List.mem_cons.mp hmem with
        | inl e => exact absurd e.symm hji
        | inr m => exact m
      cases hj : dictGet p2i j with
      | some img => simp only [schedStep, hj]; exact ih texts _ hmem' hlen
      | none =>
        simp only [schedStep, hj]
        exact ih _ _ hmem' (by rw [List.length_set]; exact hlen)

theorem collectPhase_length (ts : List String) (tasks : List (Nat × Nat))
    (env : Nat → RunOutcome) :
    (collectPhase ts tasks env).length = ts.length := by
  simp only [collectPhase]
  induction tasks generalizing ts with
  | nil => rfl
  | cons t rest ih =>
    rw [List.foldl_cons, ih]
    exact List.length_set ts t.1 _

theorem collectPhase_getD_not_mem (ts : List String) (tasks : List (Nat × Nat))
    (env : Nat → RunOutcome) (i : Nat) (d : String)
    (h : ∀ t ∈ tasks, t.1 ≠ i) :
    (collectPhase ts tasks env).getD i d = ts.getD i d := by
  simp only [collectPhase]
  induction tasks generalizing ts with
  | nil => rfl
  | cons t rest ih =>
    rw [List.foldl_cons, ih _ (fun u hu => h u (List.mem_cons_of_mem _ hu))]
    simp only [collectStep]
    rw [getD_set_ne (h t (List.mem_cons_self _ _))]

theorem collectPhase_getD_mem (ts : List String) (tasks : List (Nat × Nat))
    (env : Nat → RunOutcome) (i img : Nat) (d : String)
    (hmem : (i, img) ∈ tasks) (hnd : (tasks.map Prod.fst).Nodup)
    (hlen : i < ts.length) :
    (collectPhase ts tasks env).getD i d = ocr_image (env img) := by
  simp only [collectPhase]
  induction tasks generalizing ts with
  | nil => cases hmem
  | cons t rest ih =>
    rw [List.foldl_cons]
    cases List.mem_cons.mp hmem with
    | inl e =>
      subst e
      have hrest : ∀ u ∈ rest, u.1 ≠ i := by
        intro u hu e
        have : i ∈ rest.map Prod.fst := e ▸ List.mem_map_of_mem Prod.fst hu
        exact (List.nodup_cons.mp hnd).1 this
      have hnm := collectPhase_getD_not_mem (collectStep env ts (i, img)) rest env i d hrest
      simp only [collectPhase] at hnm
      rw [hnm, collectStep, getD_set_self hlen]
    | inr m =>
      exact ih _ m (List.nodup_cons.mp hnd).2
        (by rw [collectStep, List.length_set]; exact hlen)

theorem map_fst_schedTasks (p2i : List (Nat × Nat)) (needs : List Nat) :
    (needs.filterMap (fun j => (dictGet p2i j).map (fun img => (j, img)))).map Prod.fst
      = needs.filter (fun j => (dictGet p2i j).isSome) := by
  induction needs with
  | nil => rfl
  | cons j t ih =>
    cases hj : dictGet p2i j <;>
      simp [hj, ih, List.filter_cons, List.filterMap_cons]

theorem mem_schedTasks {p2i : List (Nat × Nat)} {needs : List Nat} {i img : Nat} :
    (i, img) ∈ needs.filterMap (fun j => (dictGet p2i j).map (fun img => (j, img)))
      ↔ i ∈ needs ∧ dictGet p2i i = some img := by
  rw [List.mem_filterMap]
  constructor
  · rintro ⟨j, hj, he⟩
    cases hd : dictGet p2i j with
    | none => rw [hd] at he; cases he
    | some im =>
      rw [hd] at he
      have : j = i ∧ im = img := by
        simpa [Prod.ext_iff] using he
      exact ⟨this.1 ▸ hj, by rw [← this.1, hd, this.2]⟩
  · rintro ⟨hm, hd⟩
    exact ⟨i, hm, by rw [hd]; rfl⟩

theorem nodup_map_fst_schedTasks (p2i : List (Nat × Nat)) (needs : List Nat)
    (h : needs.Nodup) :
    ((needs.filterMap (fun j => (dictGet p2i j).map (fun img => (j, img)))).map
      Prod.fst).Nodup := by
  rw [map_fst_schedTasks]
  exact h.filter _

theorem mem_dictInsert {m : List (Nat × Nat)} {k v : Nat} {kv : Nat × Nat}
    (h : kv ∈ dictInsert m k v) : kv = (k, v) ∨ kv ∈ m := by
  unfold dictInsert at h
  split at h
  · rw [List.mem_map] at h
    obtain ⟨kv0, hkv0, he⟩ := h
    by_cases hb : kv0.1 == k
    · rw [if_pos hb] at he
      exact Or.inl he.symm
    · rw [if_neg hb] at he
      exact Or.inr (he ▸ hkv0)
  · rw [List.mem_append] at h
    cases h with
    | inl hm => exact Or.inr hm
    | inr he =>
      left
      simpa using he

theorem page_to_image_key_lt (n : Nat) (images : List Nat) :
    ∀ kv ∈ page_to_image n images, kv.1 < n := by
  unfold page_to_image
  suffices h : ∀ (m : List (Nat × Nat)), (∀ kv ∈ m, kv.1 < n) →
      ∀ kv ∈ images.foldl (fun m stem =>
        let page_num : Int := Int.ofNat stem - 1
        if 0 ≤ page_num ∧ page_num < (n : Int) then
          dictInsert m page_num.toNat stem
        else m) m, kv.1 < n by
    exact h [] (by intro kv hkv; cases hkv)
  induction images with
  | nil => intro m hm; exact hm
  | cons s t ih =>
    intro m hm kv hkv
    rw [List.foldl_cons] at hkv
    refine ih _ ?_ kv hkv
    intro kv' hkv'
    simp only [] at hkv'
    by_cases hc : 0 ≤ Int.ofNat s - 1 ∧ Int.ofNat s - 1 < (n : Int)
    · rw [if_pos hc] at hkv'
      cases mem_dictInsert hkv' with
      | inl he =>
        rw [he]
        have := hc.2
        omega
      | inr hm' => exact hm kv' hm'
    · rw [if_neg hc] at hkv'
      exact hm kv' hkv'

theorem dictGet_mem {m : List (Nat × Nat)} {k img : Nat}
    (h : dictGet m k = some img) : (k, img) ∈ m := by
  unfold dictGet at h
  cases hf : m.find? (fun kv => kv.1 == k) with
  | none => rw [hf] at h; cases h
  | some kv =>
    rw [hf] at h
    have h2 : kv.2 = img := by simpa using h
    have hm := List.mem_of_find?_eq_some hf
    have hp := List.find?_some hf
    have h1 : kv.1 = k := by simpa using hp
    have : kv = (k, img) := by
      cases kv
      simp_all
    exact this ▸ hm

theorem dictGet_page_to_image_lt {n : Nat} {images : List Nat} {k img : Nat}
    (h : dictGet (page_to_image n images) k = some img) : k < n :=
  page_to_image_key_lt n images _ (dictGet_mem h)

theorem final_texts_length (doc : List ExtractOutcome) (raster : RasterOutcome)
    (env : Nat → RunOutcome) :
    (final_texts doc raster env).length = doc.length := by
  simp only [final_texts]
  split
  · rw [collectPhase_length]
    simp only [schedulePhase]
    rw [schedFold_fst_length, length_directPass]
  · exact length_directPass doc

theorem final_texts_getD (doc : List ExtractOutcome) (raster : RasterOutcome)
    (env : Nat → RunOutcome) (i : Nat) (h : i < doc.length) :
    (final_texts doc raster env).getD i "" =
      (if needs_ocr_check ((directPass doc).getD i "") = true then
        match dictGet (page_to_image doc.length (convert_pdf_to_images raster)) i with
        | some img => ocr_image (env img)
        | none => "[NO IMAGE AVAILABLE FOR OCR]"
      else (directPass doc).getD i "") := by
  have hlen : i < (directPass doc).length := by rw [length_directPass]; exact h
  simp only [final_texts]
  by_cases hpos : (pages_needing_ocr (directPass doc)).length > 0
  case neg =>
    rw [if_neg hpos]
    have hnil : pages_needing_ocr (directPass doc) = [] :=
      List.length_eq_zero.mp (Nat.eq_zero_of_not_pos hpos)
    have hcheck : ¬ (needs_ocr_check ((directPass doc).getD i "") = true) := by
      intro hc
      have hm : i ∈ pages_needing_ocr (directPass doc) :=
        mem_pages_needing_ocr.mpr ⟨hlen, hc⟩
      rw [hnil] at hm
      cases hm
    rw [if_neg hcheck]
  case pos =>
    rw [if_pos hpos]
    have hsnd : (schedulePhase (directPass doc)
        (page_to_image doc.length (convert_pdf_to_images raster))
        (pages_needing_ocr (directPass doc))).2
        = (pages_needing_ocr (directPass doc)).filterMap
            (fun j => (dictGet (page_to_image doc.length
              (convert_pdf_to_images raster)) j).map (fun img => (j, img))) := by
      simp only [schedulePhase]
      rw [schedFold_snd, List.nil_append]
    have hfstlen : (schedulePhase (directPass doc)
        (page_to_image doc.length (convert_pdf_to_images raster))
        (pages_needing_ocr (directPass doc))).1.length
        = (directPass doc).length := by
      simp only [schedulePhase]
      exact schedFold_fst_length _ _ _ _
    by_cases hc : needs_ocr_check ((directPass doc).getD i "") = true
    · rw [if_pos hc]
      have hin : i ∈ pages_needing_ocr (directPass doc) :=
        mem_pages_needing_ocr.mpr ⟨hlen, hc⟩
      cases hd : dictGet (page_to_image doc.length (convert_pdf_to_images raster)) i with
      | some img =>
        have hmemtask : (i, img) ∈ (schedulePhase (directPass doc)
            (page_to_image doc.length (convert_pdf_to_images raster))
            (pages_needing_ocr (directPass doc))).2 := by
          rw [hsnd]
          exact mem_schedTasks.mpr ⟨hin, hd⟩
        have hnd : ((schedulePhase (directPass doc)
            (page_to_image doc.length (convert_pdf_to_images raster))
            (pages_needing_ocr (directPass doc))).2.map Prod.fst).Nodup := by
          rw [hsnd]
          exact nodup_map_fst_schedTasks _ _ (nodup_pages_needing_ocr _)
        rw [collectPhase_getD_mem _ _ _ _ img _ hmemtask hnd
          (by rw [hfstlen]; exact hlen)]
      | none =>
        have hnotin : ∀ t ∈ (schedulePhase (directPass doc)
            (page_to_image doc.length (convert_pdf_to_images raster))
            (pages_needing_ocr (directPass doc))).2, t.1 ≠ i := by
          rw [hsnd]
          intro t ht he
          have := mem_schedTasks.mp (by
            rw [← Prod.mk.eta (p := t)] at ht
            exact ht)
          rw [he] at this
          rw [this.2] at hd
          cases hd
        rw [collectPhase_getD_not_mem _ _ _ _ _ hnotin]
        simp only [schedulePhase]
        exact schedFold_fst_getD_none _ _ _ _ _ _ hin hd hlen
    · rw [if_neg hc]
      have hnotin2 : i ∉ pages_needing_ocr (directPass doc) := by
        intro hm
        exact hc (mem_pages_needing_ocr.mp hm).2
      have hnotask : ∀ t ∈ (schedulePhase (directPass doc)
          (page_to_image doc.length (convert_pdf_to_images raster))
          (pages_needing_ocr (directPass doc))).2, t.1 ≠ i := by
        rw [hsnd]
        intro t ht he
        have := mem_schedTasks.mp (by
          rw [← Prod.mk.eta (p := t)] at ht
          exact ht)
        exact hnotin2 (he ▸ this.1)
      rw [collectPhase_getD_not_mem _ _ _ _ _ hnotask]
      simp only [schedulePhase]
      exact schedFold_fst_getD_of_img _ _ _ _ _ _ (fun hm => absurd hm hnotin2)

theorem extract_pages_length (doc : List ExtractOutcome) (raster : RasterOutcome)
    (env : Nat → RunOutcome) :
    (extract_core_traced doc raster env).1.pages.length = doc.length := by
  simp only [extract_core_traced]
  rw [List.length_map, List.length_range]

theorem extract_pages_getD (doc : List ExtractOutcome) (raster : RasterOutcome)
    (env : Nat → RunOutcome) (i : Nat) (h : i < doc.length) :
    (extract_core_traced doc raster env).1.pages.getD i (0, "")
      = (i + 1, (final_texts doc raster env).getD i "") := by
  simp only [extract_core_traced]
  rw [List.getD_eq_getElem?_getD, List.getElem?_map, List.getElem?_range h]
  rfl

theorem extract_ocr_used (doc : List ExtractOutcome) (raster : RasterOutcome)
    (env : Nat → RunOutcome) :
    (extract_core_traced doc raster env).1.ocr_used
      = decide ((pages_needing_ocr (directPass doc)).length > 0) := rfl

theorem extract_ocr_tasks (doc : List ExtractOutcome) (raster : RasterOutcome)
    (env : Nat → RunOutcome) :
    (extract_core_traced doc raster env).2.ocr_tasks = ocr_tasks_of doc raster := rfl

theorem ocr_tasks_of_eq (doc : List ExtractOutcome) (raster : RasterOutcome)
    (h : (pages_needing_ocr (directPass doc)).length > 0) :
    ocr_tasks_of doc raster
      = (pages_needing_ocr (directPass doc)).filterMap
          (fun j => (dictGet (page_to_image doc.length
            (convert_pdf_to_images raster)) j).map (fun img => (j, img))) := by
  simp only [ocr_tasks_of]
  rw [if_pos h]
  simp only [schedulePhase]
  rw [schedFold_snd, List.nil_append]

theorem ocr_image_ne_empty (r : RunOutcome) : ocr_image r ≠ "" := by
  cases r with
  | completed out =>
    simp only [ocr_image]
    split
    · decide
    · assumption
  | timedOut => decide
  | errored msg =>
    simp only [ocr_image]
    intro he
    have h := congrArg String.data he
    rw [String.data_append] at h
    have h2 := List.append_eq_nil.mp h
    exact absurd h2.1 (by decide)

theorem extract_core_congr (d1 d2 : List ExtractOutcome) (raster : RasterOutcome)
    (env : Nat → RunOutcome) (hlen : d1.length = d2.length)
    (hdp : directPass d1 = directPass d2) :
    extract_core_traced d1 raster env = extract_core_traced d2 raster env := by
  simp only [extract_core_traced, final_texts, ocr_tasks_of, hlen, hdp]

/-! ### Claim theorems -/

/-- C2: the page classifier marks a page `sufficient` (does not mark it
`needs-ocr`) exactly when the trimmed length of its direct text is at
least 20 characters; a trimmed length of exactly 19 classifies as
`needs-ocr` and exactly 20 as `sufficient`. -/
theorem C2_classifier_threshold :
    (∀ t : String, needs_ocr_check t = false ↔ 20 ≤ (pyStrip t).length) ∧
    needs_ocr_check "aaaaaaaaaaaaaaaaaaa" = true ∧
    needs_ocr_check "aaaaaaaaaaaaaaaaaaaa" = false ∧
    needs_ocr_check "   aaaaaaaaaaaaaaaaaaa   " = true := by
  refine ⟨fun t => ?_, by decide, by decide, by decide⟩
  simp [needs_ocr_check, Nat.not_lt]

/-- C4: the OCR adapter returns a string on every path: `"[OCR TIMEOUT]"`
on timeout, `"[OCR ERROR] {cause}"` on any other invocation failure,
`"[OCR EMPTY]"` when the run succeeds with empty/whitespace-only output,
and otherwise the recognized text trimmed of surrounding whitespace. -/
theorem C4_ocr_adapter_sentinels :
    (ocr_image RunOutcome.timedOut = "[OCR TIMEOUT]") ∧
    (∀ msg, ocr_image (RunOutcome.errored msg) = "[OCR ERROR] " ++ msg) ∧
    (∀ out, pyStrip out = "" → ocr_image (RunOutcome.completed out) = "[OCR EMPTY]") ∧
    (∀ out, pyStrip out ≠ "" → ocr_image (RunOutcome.completed out) = pyStrip out) := by
  refine ⟨rfl, fun msg => rfl, fun out h => ?_, fun out h => ?_⟩
  · simp [ocr_image, h]
  · simp [ocr_image, h]

theorem C4_ocr_adapter_sentinels_witness :
    ocr_image (RunOutcome.completed "   ") = "[OCR EMPTY]" ∧
    ocr_image (RunOutcome.completed " scan result text ") = "scan result text" := by
  constructor
  · exact C4_ocr_adapter_sentinels.2.2.1 "   " (by decide)
  · exact (C4_ocr_adapter_sentinels.2.2.2 " scan result text " (by decide)).trans
      (by decide)

/-- C1 counterexample: on a one-page document whose direct text has 20
trimmed characters, no page needs OCR and `ocr_used = false` with no OCR
task submitted — yet the rasterization step is still invoked (line 136
runs unconditionally, before `pages_needing_ocr` is computed), so the
claim that no rasterization is performed is false. -/
theorem C1_counterexample :
    pages_needing_ocr (directPass [ExtractOutcome.ok "aaaaaaaaaaaaaaaaaaaa"]) = [] ∧
    (extract_core_traced [ExtractOutcome.ok "aaaaaaaaaaaaaaaaaaaa"]
      (RasterOutcome.produced [1]) (fun _ => RunOutcome.completed "x")).1.ocr_used
      = false ∧
    (extract_core_traced [ExtractOutcome.ok "aaaaaaaaaaaaaaaaaaaa"]
      (RasterOutcome.produced [1]) (fun _ => RunOutcome.completed "x")).2.ocr_tasks
      = [] ∧
    (extract_core_traced [ExtractOutcome.ok "aaaaaaaaaaaaaaaaaaaa"]
      (RasterOutcome.produced [1]) (fun _ => RunOutcome.completed "x")).2.raster_invoked
      = true := by
  refine ⟨by decide, by decide, by decide, rfl⟩

/-- C1 amended: when every page's direct text has trimmed length at
least 20, `ocr_used` is `false` and no OCR task is submitted — but the
rasterization step is still invoked unconditionally. -/
theorem C1_amended_no_ocr_work (doc : List ExtractOutcome)
    (raster : RasterOutcome) (env : Nat → RunOutcome)
    (h : ∀ i, i < doc.length → 20 ≤ (pyStrip ((directPass doc).getD i "")).length) :
    (extract_core_traced doc raster env).1.ocr_used = false ∧
    (extract_core_traced doc raster env).2.ocr_tasks = [] ∧
    (extract_core_traced doc raster env).2.raster_invoked = true := by
  have hneeds : pages_needing_ocr (directPass doc) = [] := by
    rw [pages_needing_ocr, List.filter_eq_nil_iff]
    intro i hi
    rw [List.mem_range, length_directPass] at hi
    have h2 := h i hi
    rw [List.getD_eq_getElem?_getD] at h2
    simp [needs_ocr_check, Nat.not_lt]
    exact h2
  refine ⟨?_, ?_, rfl⟩
  · rw [extract_ocr_used, hneeds]
    rfl
  · rw [extract_ocr_tasks]
    simp [ocr_tasks_of, hneeds]

theorem C1_amended_no_ocr_work_witness :
    (extract_core_traced [ExtractOutcome.ok "bbbbbbbbbbbbbbbbbbbb"]
      RasterOutcome.failed (fun _ => RunOutcome.timedOut)).1.ocr_used = false ∧
    (extract_core_traced [ExtractOutcome.ok "bbbbbbbbbbbbbbbbbbbb"]
      RasterOutcome.failed (fun _ => RunOutcome.timedOut)).2.ocr_tasks = [] ∧
    (extract_core_traced [ExtractOutcome.ok "bbbbbbbbbbbbbbbbbbbb"]
      RasterOutcome.failed (fun _ => RunOutcome.timedOut)).2.raster_invoked = true :=
  C1_amended_no_ocr_work _ _ _ (by
    intro i hi
    have h0 : i = 0 := Nat.lt_one_iff.mp (by simpa using hi)
    rw [h0]
    decide)

/-- C9: an upload whose filename does not end in `.pdf`
(case-insensitively) is rejected with a 400 error before the file is
saved, before the PDF is parsed, and before any rasterization or OCR
work happens — regardless of the file's actual content. -/
theorem C9_filename_gate (filename : String)
    (read : Except String (List ExtractOutcome)) (raster : RasterOutcome)
    (env : Nat → RunOutcome)
    (h : pyEndsWith (pyLower filename) ".pdf" = false) :
    extract_endpoint filename read raster env
      = (Except.error (400, "File must be a PDF"),
         { saved := false, raster_invoked := false, ocr_tasks := [] }) := by
  simp [extract_endpoint, h]

theorem C9_filename_gate_witness :
    extract_endpoint "report.txt"
        (Except.ok [ExtractOutcome.ok ""]) (RasterOutcome.produced [1])
        (fun _ => RunOutcome.completed "x")
      = (Except.error (400, "File must be a PDF"),
         { saved := false, raster_invoked := false, ocr_tasks := [] }) :=
  C9_filename_gate _ _ _ _ (by decide)

/-- C10: every image whose parsed page number is outside
`0 .. page count - 1` is discarded when `page_to_image` is built, so
every key of the map is in range; hence every OCR task targets an
in-bounds page index, as does every sentinel write (those happen only at
indices of `pages_needing_ocr`, which are all in range). -/
theorem C10_in_bounds_writes (doc : List ExtractOutcome) (raster : RasterOutcome)
    (images : List Nat) (n : Nat) :
    (∀ k img, dictGet (page_to_image n images) k = some img → k < n) ∧
    (∀ t ∈ ocr_tasks_of doc raster, t.1 < doc.length) ∧
    (∀ i ∈ pages_needing_ocr (directPass doc), i < doc.length) := by
  refine ⟨fun k img hk => dictGet_page_to_image_lt hk, ?_, ?_⟩
  · intro t ht
    rw [ocr_tasks_of] at ht
    by_cases hpos : (pages_needing_ocr (directPass doc)).length > 0
    · rw [if_pos hpos] at ht
      have hsnd := ocr_tasks_of_eq doc raster hpos
      rw [ocr_tasks_of, if_pos hpos] at hsnd
      rw [hsnd] at ht
      have hm := mem_schedTasks.mp (by
        rw [← Prod.mk.eta (p := t)] at ht
        exact ht)
      exact dictGet_page_to_image_lt hm.2
    · rw [if_neg hpos] at ht
      cases ht
  · intro i hi
    have := (mem_pages_needing_ocr.mp hi).1
    rwa [length_directPass] at this

theorem C10_in_bounds_writes_witness :
    (0 : Nat) < 1 :=
  (C10_in_bounds_writes [ExtractOutcome.ok ""] (RasterOutcome.produced [1, 5])
    [1, 5] 1).1 0 1 (by decide)

/-- C3: for every accepted document, the returned pages list has exactly
page-count entries, its page numbers ascend as `i + 1`, and every
entry's text is either direct text of 20+ trimmed characters, the
no-image sentinel, or the OCR adapter's output (itself genuine text or
one of the OCR sentinels); no entry is the uninitialized default `""`. -/
theorem C3_pages_complete (doc : List ExtractOutcome) (raster : RasterOutcome)
    (env : Nat → RunOutcome) :
    (extract_core_traced doc raster env).1.pages.length = doc.length ∧
    ∀ i, i < doc.length →
      ((extract_core_traced doc raster env).1.pages.getD i (0, "")).1 = i + 1 ∧
      (((extract_core_traced doc raster env).1.pages.getD i (0, "")).2
          = (directPass doc).getD i ""
          ∧ 20 ≤ (pyStrip ((directPass doc).getD i "")).length
        ∨ ((extract_core_traced doc raster env).1.pages.getD i (0, "")).2
            = "[NO IMAGE AVAILABLE FOR OCR]"
        ∨ ∃ img, ((extract_core_traced doc raster env).1.pages.getD i (0, "")).2
            = ocr_image (env img)) ∧
      ((extract_core_traced doc raster env).1.pages.getD i (0, "")).2 ≠ "" := by
  refine ⟨extract_pages_length doc raster env, fun i h => ?_⟩
  have hfst : ((extract_core_traced doc raster env).1.pages.getD i (0, "")).1 = i + 1 := by
    rw [extract_pages_getD doc raster env i h]
  have hsnd : ((extract_core_traced doc raster env).1.pages.getD i (0, "")).2
      = (final_texts doc raster env).getD i "" := by
    rw [extract_pages_getD doc raster env i h]
  refine ⟨hfst, ?_, ?_⟩
  · rw [hsnd, final_texts_getD doc raster env i h]
    by_cases hc : needs_ocr_check ((directPass doc).getD i "") = true
    · rw [if_pos hc]
      cases hd : dictGet (page_to_image doc.length (convert_pdf_to_images raster)) i with
      | some img => exact Or.inr (Or.inr ⟨img, rfl⟩)
      | none => exact Or.inr (Or.inl rfl)
    · rw [if_neg hc]
      refine Or.inl ⟨rfl, ?_⟩
      have hnlt : ¬ ((pyStrip ((directPass doc).getD i "")).length < 20) := by
        intro hlt
        exact hc (by simp only [needs_ocr_check]; exact decide_eq_true hlt)
      omega
  · rw [hsnd, final_texts_getD doc raster env i h]
    by_cases hc : needs_ocr_check ((directPass doc).getD i "") = true
    · rw [if_pos hc]
      cases hd : dictGet (page_to_image doc.length (convert_pdf_to_images raster)) i with
      | some img => exact ocr_image_ne_empty (env img)
      | none =>
        show "[NO IMAGE AVAILABLE FOR OCR]" ≠ ""
        decide
    · rw [if_neg hc]
      intro he
      rw [he] at hc
      exact hc (by decide)

theorem C3_pages_complete_witness :
    ((extract_core_traced [ExtractOutcome.ok ""] RasterOutcome.failed
        (fun _ => RunOutcome.timedOut)).1.pages.getD 0 (0, "")).1 = 0 + 1 ∧
    (((extract_core_traced [ExtractOutcome.ok ""] RasterOutcome.failed
        (fun _ => RunOutcome.timedOut)).1.pages.getD 0 (0, "")).2
        = (directPass [ExtractOutcome.ok ""]).getD 0 ""
        ∧ 20 ≤ (pyStrip ((directPass [ExtractOutcome.ok ""]).getD 0 "")).length
      ∨ ((extract_core_traced [ExtractOutcome.ok ""] RasterOutcome.failed
          (fun _ => RunOutcome.timedOut)).1.pages.getD 0 (0, "")).2
          = "[NO IMAGE AVAILABLE FOR OCR]"
      ∨ ∃ _img : Nat,
          ((extract_core_traced [ExtractOutcome.ok ""] RasterOutcome.failed
            (fun _ => RunOutcome.timedOut)).1.pages.getD 0 (0, "")).2
            = ocr_image RunOutcome.timedOut) ∧
    ((extract_core_traced [ExtractOutcome.ok ""] RasterOutcome.failed
        (fun _ => RunOutcome.timedOut)).1.pages.getD 0 (0, "")).2 ≠ "" :=
  (C3_pages_complete [ExtractOutcome.ok ""] RasterOutcome.failed
    (fun _ => RunOutcome.timedOut)).2 0 (by decide)

/-- C5: when batch rasterization fails, the rasterizer adapter returns
the empty image sequence; no OCR task is submitted at all, every page
needing OCR gets the exact text `"[NO IMAGE AVAILABLE FOR OCR]"`,
pages with sufficient direct text keep their direct text, and the
request still succeeds. -/
theorem C5_raster_failure_soft (doc : List ExtractOutcome)
    (env : Nat → RunOutcome) (i : Nat) (h : i < doc.length) :
    convert_pdf_to_images RasterOutcome.failed = [] ∧
    (extract_core_traced doc RasterOutcome.failed env).2.ocr_tasks = [] ∧
    (needs_ocr_check ((directPass doc).getD i "") = true →
      ((extract_core_traced doc RasterOutcome.failed env).1.pages.getD i (0, "")).2
        = "[NO IMAGE AVAILABLE FOR OCR]") ∧
    (needs_ocr_check ((directPass doc).getD i "") = false →
      ((extract_core_traced doc RasterOutcome.failed env).1.pages.getD i (0, "")).2
        = (directPass doc).getD i "") ∧
    (extract_core_traced doc RasterOutcome.failed env).1.status = "success" := by
  refine ⟨rfl, ?_, ?_, ?_, rfl⟩
  · rw [extract_ocr_tasks, ocr_tasks_of]
    by_cases hpos : (pages_needing_ocr (directPass doc)).length > 0
    · rw [if_pos hpos]
      simp only [schedulePhase]
      rw [schedFold_snd, List.nil_append, List.filterMap_eq_nil_iff]
      intro j hj
      rfl
    · rw [if_neg hpos]
  · intro hc
    rw [extract_pages_getD doc RasterOutcome.failed env i h,
      final_texts_getD doc RasterOutcome.failed env i h, if_pos hc]
    rfl
  · intro hc
    rw [extract_pages_getD doc RasterOutcome.failed env i h,
      final_texts_getD doc RasterOutcome.failed env i h,
      if_neg (by rw [hc]; exact Bool.false_ne_true)]

theorem C5_raster_failure_soft_witness :
    ((extract_core_traced [ExtractOutcome.ok "", ExtractOutcome.ok "aaaaaaaaaaaaaaaaaaaa"]
        RasterOutcome.failed (fun _ => RunOutcome.timedOut)).1.pages.getD 0 (0, "")).2
      = "[NO IMAGE AVAILABLE FOR OCR]" ∧
    ((extract_core_traced [ExtractOutcome.ok "", ExtractOutcome.ok "aaaaaaaaaaaaaaaaaaaa"]
        RasterOutcome.failed (fun _ => RunOutcome.timedOut)).1.pages.getD 1 (0, "")).2
      = (directPass [ExtractOutcome.ok "", ExtractOutcome.ok "aaaaaaaaaaaaaaaaaaaa"]).getD 1 "" ∧
    (extract_core_traced [ExtractOutcome.ok "", ExtractOutcome.ok "aaaaaaaaaaaaaaaaaaaa"]
        RasterOutcome.failed (fun _ => RunOutcome.timedOut)).2.ocr_tasks = [] := by
  refine ⟨?_, ?_, ?_⟩
  · exact (C5_raster_failure_soft _ _ 0 (by decide)).2.2.1 (by decide)
  · exact (C5_raster_failure_soft _ _ 1 (by decide)).2.2.2.1 (by decide)
  · exact (C5_raster_failure_soft _ (fun _ => RunOutcome.timedOut) 0 (by decide)).2.1

theorem nodup_map_fst_ocr_tasks_of (doc : List ExtractOutcome)
    (raster : RasterOutcome) :
    ((ocr_tasks_of doc raster).map Prod.fst).Nodup := by
  rw [ocr_tasks_of]
  by_cases hpos : (pages_needing_ocr (directPass doc)).length > 0
  · rw [if_pos hpos]
    simp only [schedulePhase]
    rw [schedFold_snd, List.nil_append]
    exact nodup_map_fst_schedTasks _ _ (nodup_pages_needing_ocr _)
  · rw [if_neg hpos]
    exact List.nodup_nil

/-- C6: collecting the submitted OCR tasks' results in any completion
order (any permutation of the task list) yields the identical final
page-indexed text array, because each result is written to the slot
named by its task's original page index. -/
theorem C6_completion_order_independent (doc : List ExtractOutcome)
    (raster : RasterOutcome) (env : Nat → RunOutcome) (ts : List String)
    (order : List (Nat × Nat))
    (hperm : (ocr_tasks_of doc raster).Perm order) :
    collectPhase ts (ocr_tasks_of doc raster) env = collectPhase ts order env := by
  simp only [collectPhase]
  refine hperm.foldl_eq' ?_ ts
  intro x hx y hy z
  by_cases hxy : x.1 = y.1
  · have hxey : x = y :=
      List.inj_on_of_nodup_map (nodup_map_fst_ocr_tasks_of doc raster) hx hy hxy
    rw [hxey]
  · simp only [collectStep]
    exact List.set_comm _ _ z hxy

theorem C6_completion_order_independent_witness :
    collectPhase ["", ""]
        (ocr_tasks_of [ExtractOutcome.ok "", ExtractOutcome.ok ""]
          (RasterOutcome.produced [1, 2]))
        (fun img => if img = 1 then RunOutcome.completed " first "
          else RunOutcome.completed " second ")
      = collectPhase ["", ""] [(1, 2), (0, 1)]
        (fun img => if img = 1 then RunOutcome.completed " first "
          else RunOutcome.completed " second ") :=
  C6_completion_order_independent _ _ _ _ _ (by decide)

/-- C7 counterexample. Two concrete 3-page documents meeting the
claim's premise (pages 1 and 3 have 20+ characters of direct text,
page 2 has none) on which the claim, as stated, fails:
(a) page 1's direct text carries a trailing space, and the reported
text is the stripped form (line 129 stores `text.strip()`), not the
embedded text unchanged — even though `ocr_used = true` and exactly one
task, for page 2, is scheduled;
(b) when rasterization fails, no OCR task at all is scheduled, not
exactly one. -/
theorem C7_counterexample :
    ((pyStrip "cccccccccccccccccccc ").length = 20 ∧
     (extract_core_traced [ExtractOutcome.ok "cccccccccccccccccccc ",
         ExtractOutcome.ok "", ExtractOutcome.ok "cccccccccccccccccccc"]
       (RasterOutcome.produced [1, 2, 3])
       (fun _ => RunOutcome.completed "ocr")).1.ocr_used = true ∧
     (extract_core_traced [ExtractOutcome.ok "cccccccccccccccccccc ",
         ExtractOutcome.ok "", ExtractOutcome.ok "cccccccccccccccccccc"]
       (RasterOutcome.produced [1, 2, 3])
       (fun _ => RunOutcome.completed "ocr")).2.ocr_tasks = [(1, 2)] ∧
     ((extract_core_traced [ExtractOutcome.ok "cccccccccccccccccccc ",
         ExtractOutcome.ok "", ExtractOutcome.ok "cccccccccccccccccccc"]
       (RasterOutcome.produced [1, 2, 3])
       (fun _ => RunOutcome.completed "ocr")).1.pages.getD 0 (0, "")).2
       ≠ "cccccccccccccccccccc ") ∧
    (extract_core_traced [ExtractOutcome.ok "cccccccccccccccccccc",
        ExtractOutcome.ok "", ExtractOutcome.ok "cccccccccccccccccccc"]
      RasterOutcome.failed
      (fun _ => RunOutcome.completed "ocr")).2.ocr_tasks = [] := by
  refine ⟨⟨by decide, by decide, by decide, by decide⟩, by decide⟩

/-- C7 amended: for a 3-page document where pages 1 and 3 have direct
text of trimmed length at least 20 and page 2 has none, provided
rasterization yielded an image for page 2, the result has
`ocr_used = true`, exactly one OCR task is scheduled (for page 2), and
the reported text of pages 1 and 3 is their direct-extracted text
trimmed of surrounding whitespace (hence unchanged whenever the
embedded text carries no surrounding whitespace). -/
theorem C7_amended_frame (t1 t3 : String) (raster : RasterOutcome)
    (env : Nat → RunOutcome) (img : Nat)
    (h1 : 20 ≤ (pyStrip t1).length) (h3 : 20 ≤ (pyStrip t3).length)
    (himg : dictGet (page_to_image 3 (convert_pdf_to_images raster)) 1 = some img) :
    (extract_core_traced [ExtractOutcome.ok t1, ExtractOutcome.ok "",
        ExtractOutcome.ok t3] raster env).1.ocr_used = true ∧
    (extract_core_traced [ExtractOutcome.ok t1, ExtractOutcome.ok "",
        ExtractOutcome.ok t3] raster env).2.ocr_tasks = [(1, img)] ∧
    ((extract_core_traced [ExtractOutcome.ok t1, ExtractOutcome.ok "",
        ExtractOutcome.ok t3] raster env).1.pages.getD 0 (0, "")).2 = pyStrip t1 ∧
    ((extract_core_traced [ExtractOutcome.ok t1, ExtractOutcome.ok "",
        ExtractOutcome.ok t3] raster env).1.pages.getD 2 (0, "")).2 = pyStrip t3 := by
  have hc1 : needs_ocr_check (pyStrip t1) = false := by
    rw [needs_ocr_check_pyStrip]
    simp [needs_ocr_check, Nat.not_lt]
    exact h1
  have hc3 : needs_ocr_check (pyStrip t3) = false := by
    rw [needs_ocr_check_pyStrip]
    simp [needs_ocr_check, Nat.not_lt]
    exact h3
  have hneeds : pages_needing_ocr (directPass [ExtractOutcome.ok t1,
      ExtractOutcome.ok "", ExtractOutcome.ok t3]) = [1] := by
    show (List.range 3).filter
      (fun i => needs_ocr_check (([pyStrip t1, "", pyStrip t3] : List String).getD i ""))
      = [1]
    rw [show List.range 3 = [0, 1, 2] from rfl]
    simp [List.filter_cons, hc1, hc3, show needs_ocr_check "" = true from rfl]
  have hpos : (pages_needing_ocr (directPass [ExtractOutcome.ok t1,
      ExtractOutcome.ok "", ExtractOutcome.ok t3])).length > 0 := by
    rw [hneeds]
    decide
  refine ⟨?_, ?_, ?_, ?_⟩
  · rw [extract_ocr_used, hneeds]
    rfl
  · rw [extract_ocr_tasks, ocr_tasks_of_eq _ _ hpos, hneeds]
    simp [List.filterMap_cons, himg]
  · rw [extract_pages_getD _ raster env 0 (by simp),
      final_texts_getD _ raster env 0 (by simp),
      if_neg (by simp only [Bool.not_eq_true]; exact hc1)]
    rfl
  · rw [extract_pages_getD _ raster env 2 (by simp),
      final_texts_getD _ raster env 2 (by simp),
      if_neg (by simp only [Bool.not_eq_true]; exact hc3)]
    rfl

theorem C7_amended_frame_witness :
    (extract_core_traced [ExtractOutcome.ok "dddddddddddddddddddd",
        ExtractOutcome.ok "", ExtractOutcome.ok "eeeeeeeeeeeeeeeeeeee"]
      (RasterOutcome.produced [1, 2, 3])
      (fun _ => RunOutcome.completed "recovered")).1.ocr_used = true ∧
    (extract_core_traced [ExtractOutcome.ok "dddddddddddddddddddd",
        ExtractOutcome.ok "", ExtractOutcome.ok "eeeeeeeeeeeeeeeeeeee"]
      (RasterOutcome.produced [1, 2, 3])
      (fun _ => RunOutcome.completed "recovered")).2.ocr_tasks = [(1, 2)] ∧
    ((extract_core_traced [ExtractOutcome.ok "dddddddddddddddddddd",
        ExtractOutcome.ok "", ExtractOutcome.ok "eeeeeeeeeeeeeeeeeeee"]
      (RasterOutcome.produced [1, 2, 3])
      (fun _ => RunOutcome.completed "recovered")).1.pages.getD 0 (0, "")).2
      = pyStrip "dddddddddddddddddddd" ∧
    ((extract_core_traced [ExtractOutcome.ok "dddddddddddddddddddd",
        ExtractOutcome.ok "", ExtractOutcome.ok "eeeeeeeeeeeeeeeeeeee"]
      (RasterOutcome.produced [1, 2, 3])
      (fun _ => RunOutcome.completed "recovered")).1.pages.getD 2 (0, "")).2
      = pyStrip "eeeeeeeeeeeeeeeeeeee" :=
  C7_amended_frame "dddddddddddddddddddd" "eeeeeeeeeeeeeeeeeeee"
    (RasterOutcome.produced [1, 2, 3]) (fun _ => RunOutcome.completed "recovered")
    2 (by decide) (by decide) (by decide)

theorem set_getD_self {l : List String} {i : Nat} (hlen : i < l.length)
    (h : l.getD i "" = "") : l.set i "" = l := by
  apply List.ext_getElem?
  intro j
  by_cases hij : i = j
  · rw [List.getD_eq_getElem?_getD, List.getElem?_eq_getElem hlen] at h
    have hv : l.get ⟨i, hlen⟩ = "" := h
    rw [← hij, List.getElem?_set_self hlen, List.getElem?_eq_getElem hlen]
    rw [show l[i] = l.get ⟨i, hlen⟩ from rfl, hv]
  · rw [List.getElem?_set_ne hij]

/-- C8: a page whose direct text extraction raises is treated exactly as
if its direct-extracted text were the empty string (the whole result and
trace are identical), it is classified `needs-ocr`, and the error never
becomes a page-level or request-level failure: the endpoint still
returns a success result. -/
theorem C8_extract_error_as_empty (doc : List ExtractOutcome)
    (raster : RasterOutcome) (env : Nat → RunOutcome) (filename : String)
    (i : Nat) (h : i < doc.length)
    (hr : doc.getD i ExtractOutcome.noText = ExtractOutcome.raised)
    (hf : pyEndsWith (pyLower filename) ".pdf" = true) :
    extract_core_traced doc raster env
      = extract_core_traced (doc.set i (ExtractOutcome.ok "")) raster env ∧
    i ∈ pages_needing_ocr (directPass doc) ∧
    (extract_endpoint filename (Except.ok doc) raster env).1
      = Except.ok (extract_core_traced doc raster env).1 := by
  have hdirect : (directPass doc).getD i "" = "" := by
    rw [directPass_getD doc i h, hr]
    rfl
  have hlen' : i < (directPass doc).length := by
    rw [length_directPass]
    exact h
  refine ⟨?_, ?_, ?_⟩
  · apply extract_core_congr _ _ raster env
    · rw [List.length_set]
    · show directPass doc = List.map directText (doc.set i (ExtractOutcome.ok ""))
      rw [List.map_set]
      show directPass doc = (directPass doc).set i (pyStrip "")
      rw [show pyStrip "" = "" from rfl, set_getD_self hlen' hdirect]
  · exact mem_pages_needing_ocr.mpr ⟨hlen', by rw [hdirect]; decide⟩
  · simp [extract_endpoint, hf]

theorem C8_extract_error_as_empty_witness :
    extract_core_traced [ExtractOutcome.raised] RasterOutcome.failed
        (fun _ => RunOutcome.timedOut)
      = extract_core_traced ([ExtractOutcome.raised].set 0 (ExtractOutcome.ok ""))
          RasterOutcome.failed (fun _ => RunOutcome.timedOut) ∧
    0 ∈ pages_needing_ocr (directPass [ExtractOutcome.raised]) ∧
    (extract_endpoint "scan.PDF" (Except.ok [ExtractOutcome.raised])
        RasterOutcome.failed (fun _ => RunOutcome.timedOut)).1
      = Except.ok (extract_core_traced [ExtractOutcome.raised] RasterOutcome.failed
          (fun _ => RunOutcome.timedOut)).1 :=
  C8_extract_error_as_empty [ExtractOutcome.raised] RasterOutcome.failed
    (fun _ => RunOutcome.timedOut) "scan.PDF" 0 (by decide) (by decide) (by decide)

end PdfService
